import Mathlib

set_option maxRecDepth 20000

/-!
Verification of the Cryoten Scipion plugin (external tool invocation adapter).

This file embeds the decision logic of
`src/cryoten/protocols/protocol_cryoten.py` (class CryotenPrefixEnhace) in
Lean 4. Process execution is modelled by passing in the result a child
process would produce (`ProcResult`); the step records every child process
it spawns and every filesystem action it performs as an explicit `Action`
trace, so that claims about side effects can be stated and settled.
-/

namespace Cryoten

/-- Result of one finished child process, as observed by `subprocess.run`:
return code plus the captured and decoded standard output / standard error. -/
structure ProcResult where
  returncode : Int
  stdout : String
  stderr : String
deriving Repr, DecidableEq

/-- Whether a path string starts with a slash (is absolute). -/
def startsWithSlash (s : String) : Bool := s.data.head? == some '/'

/-- Whether a path string ends with a slash. -/
def endsWithSlash (s : String) : Bool := s.data.getLast? == some '/'

/-- Embedding of `os.path.join(a, b)` for POSIX paths, two components
(the source only joins literal relative components): an absolute second
component replaces the first, otherwise the components are joined with a
separating slash unless the first is empty or already ends in one. -/
def joinPath (a b : String) : String :=
  if startsWithSlash b then b
  else if a = "" ∨ endsWithSlash a then a ++ b
  else a ++ "/" ++ b

/-- Helper for `basename`: walk the characters, restarting the accumulator
after each slash; the accumulator holds the characters after the last slash
seen so far. -/
def basenameChars : List Char → List Char → List Char
  | [], acc => acc
  | c :: cs, acc => if c = '/' then basenameChars cs [] else basenameChars cs (acc ++ [c])

/-- Embedding of `os.path.basename(p)` for POSIX paths: the part of the
path after the last slash. -/
def basename (p : String) : String :=
  String.mk (basenameChars p.data [])

/-- Embedding of the root component of `os.path.splitext(s)` for a name
with no slash (the source applies it to a basename): cut at the last dot,
unless every character before that dot is itself a dot (then nothing is
split off, as for dotfiles). -/
def splitextRoot (s : String) : String :=
  let cs := s.data
  match cs.reverse.findIdx? (fun c => c == '.') with
  | none => s
  | some r =>
    let i := cs.length - 1 - r
    if (cs.take i).any (fun c => c != '.') then String.mk (cs.take i) else s

/-- Embedding of Python `str.strip()` (used on the conda lookup output):
drop whitespace characters from both ends. -/
def pyStrip (s : String) : String :=
  String.mk (((s.data.dropWhile Char.isWhitespace).reverse.dropWhile Char.isWhitespace).reverse)

/-- Embedding of `get_conda_path` (protocol_cryoten.py lines 66 to 76).
The caller passes in the result of the child process
`conda info --base`; on return code 0 with a non-empty stripped output the
conda activation script path is returned, otherwise the raised exception
message is returned (the inner raise is caught by the outer handler of the
same function and re-wrapped, which the message below reflects). -/
def get_conda_path (condaInfo : ProcResult) : Except String String :=
  let base_path := pyStrip condaInfo.stdout
  if condaInfo.returncode = 0 ∧ base_path ≠ "" then
    .ok (joinPath (joinPath (joinPath base_path "etc") "profile.d") "conda.sh")
  else
    .error ("An error occurred while determining conda path: Failed to determine conda base path: "
      ++ condaInfo.stderr)

/-- Embedding of the inner `run_command` (protocol_cryoten.py lines 79 to 87):
given the shell command and the result of its child process, return the
captured (stdout, stderr) pair on exit code 0 and raise otherwise, the
message carrying the captured standard error verbatim. -/
def run_command (command : String) (process : ProcResult) : Except String (String × String) :=
  if process.returncode ≠ 0 then
    .error ("Command \x27" ++ command ++ "\x27 failed with error: " ++ process.stderr)
  else
    .ok (process.stdout, process.stderr)

/-- An observable side effect of the step: a spawned child process (the
conda base lookup done with an argument list, or a shell command string run
through bash), or a created directory. The source of
`runShellCommandsStep` contains no directory creation and no other
filesystem write, so `mkdir` is never emitted; it is part of the
observation language so its absence can be stated. -/
inductive Action where
  | condaLookup : Action
  | shell : String → Action
  | mkdir : String → Action
deriving Repr, DecidableEq

/-- Whether an action spawns a child process. -/
def Action.isProcessSpawn : Action → Bool
  | .condaLookup => true
  | .shell _ => true
  | .mkdir _ => false

/-- Whether an action is the spawn of the tool shell command. -/
def Action.isToolSpawn : Action → Bool
  | .shell _ => true
  | _ => false

/-- Whether an action is a directory creation. -/
def Action.isMkdir : Action → Bool
  | .mkdir _ => true
  | _ => false

/-- Ambient inputs of one execution of `runShellCommandsStep`:
the file name of the input volume, the project base path, the result the
`conda info --base` child process would produce, the value of the
SCIPION_BASE_PATH environment variable (none when unset), the home
directory (for `os.path.expanduser`), and the result the tool shell
command child process would produce. -/
structure StepEnv where
  inputFilePath : String
  basePath : String
  condaInfo : ProcResult
  scipionEnv : Option String
  home : String
  toolProc : ProcResult
deriving Repr, DecidableEq

/-- Embedding of
`os.getenv(\x27SCIPION_BASE_PATH\x27, os.path.expanduser(\x27~/scipion\x27))`
(protocol_cryoten.py line 108). -/
def scipionBasePath (env : StepEnv) : String :=
  match env.scipionEnv with
  | some v => v
  | none => env.home ++ "/scipion"

/-- Embedding of the command f-string of protocol_cryoten.py lines 120 to
125 (protocol_hello_world.py lines 83 to 88 build the same template). The
backslash at each line end of the triple-quoted f-string joins the lines,
so each `&&` is followed by one space plus the 16 spaces of indentation of
the next line. -/
def buildCommand (condaPath cryotenPath fullInputFilePath outputFilePath : String) : String :=
  "\n                source " ++ condaPath
    ++ " &&                 conda activate cryoten_env &&                 cd " ++ cryotenPath
    ++ " &&                 python eval.py " ++ fullInputFilePath ++ " " ++ outputFilePath
    ++ "\n            "

/-- The body of `runShellCommandsStep` (protocol_cryoten.py lines 89 to
137), i.e. the contents of its try block: returns the list of actions
performed, and either the raised exception message or the output file path
that was assigned to `self.outputFilePath`. Mirrors the source order:
full input path, conda lookup, scipion base path, cryoten path, output
path, command construction, command execution, assignment. -/
def stepBody (env : StepEnv) : List Action × Except String String :=
  let fullInputFilePath := joinPath env.basePath env.inputFilePath
  match get_conda_path env.condaInfo with
  | .error e => ([Action.condaLookup], .error e)
  | .ok condaPath =>
    let scipion_base_path := scipionBasePath env
    let cryotenPath := joinPath scipion_base_path "software/em/cryoten-1.0.0/cryoten"
    let inputFileName := basename env.inputFilePath
    let outputFileName := splitextRoot inputFileName ++ ".mrc"
    let outputFilePath := joinPath (joinPath cryotenPath "output") outputFileName
    let command := buildCommand condaPath cryotenPath fullInputFilePath outputFilePath
    match run_command command env.toolProc with
    | .error e => ([Action.condaLookup, Action.shell command], .error e)
    | .ok _ => ([Action.condaLookup, Action.shell command], .ok outputFilePath)

/-- Observable outcome of `runShellCommandsStep`: the actions performed,
the exception message caught and printed by the except branch (none when
the body completed), and the value of `self.outputFilePath` afterwards
(`__init__` set it to None, and only the last line of the try block
assigns it). The step always returns normally: the bare
`except Exception` around the whole body catches every exception and only
prints it, so `StepResult` is a plain value, not an `Except`. -/
structure StepResult where
  actions : List Action
  caughtError : Option String
  outputFilePath : Option String
deriving Repr, DecidableEq

/-- Embedding of `runShellCommandsStep` of CryotenPrefixEnhace
(protocol_cryoten.py lines 78 to 140): run the body; on an exception,
catch it and print it, leaving `self.outputFilePath` at its initial None. -/
def runShellCommandsStep (env : StepEnv) : StepResult :=
  match stepBody env with
  | (acts, .ok out) => { actions := acts, caughtError := none, outputFilePath := some out }
  | (acts, .error e) => { actions := acts, caughtError := some e, outputFilePath := none }

/-- Embedding of `_validate` of CryotenPrefixEnhace (protocol_cryoten.py
lines 158 to 160): it looks at nothing (the request environment is
ignored) and returns the empty error list. -/
def protocol_validate (_env : StepEnv) : List String := []

/-- The parameter names registered by `_defineParams` of
CryotenPrefixEnhace (protocol_cryoten.py lines 49 to 59): a single
pointer parameter for the input volume, and nothing else. -/
def cryotenParamNames : List String := ["inputVolume"]

/-- A volume object as far as this plugin manipulates it: a file name and
a sampling rate (voxel size). The sampling rate is only copied, never
computed with, so it is modelled as a rational. -/
structure Volume where
  fileName : String
  samplingRate : Rat
deriving Repr, DecidableEq

/-- What `createOutputStep` registers on success: the output volume
(given to `_defineOutputs`) and the source relation
(input volume, output volume) given to `_defineSourceRelation`. -/
structure OutputRegistration where
  outputVolume : Volume
  sourceRelation : Volume × Volume
deriving Repr, DecidableEq

/-- Python falsiness of `self.outputFilePath` in
`if not self.outputFilePath:`: None and the empty string are falsy. -/
def pyFalsyStr : Option String → Bool
  | none => true
  | some s => s == ""

/-- Embedding of `createOutputStep` of CryotenPrefixEnhace
(protocol_cryoten.py lines 142 to 155): raise a RuntimeError when
`self.outputFilePath` was never set, otherwise build the output volume
with the input volume sampling rate copied over and register it together
with its source relation. -/
def createOutputStep (inputVolume : Volume) (outputFilePath : Option String) :
    Except String OutputRegistration :=
  if pyFalsyStr outputFilePath then
    .error "Output file path is not set. Ensure runShellCommandsStep has been executed successfully."
  else
    let outputVolume : Volume :=
      { fileName := outputFilePath.getD "", samplingRate := inputVolume.samplingRate }
    .ok { outputVolume := outputVolume, sourceRelation := (inputVolume, outputVolume) }

/-- Whether a string is non-empty whitespace (spacing between the parts of
the command template). -/
def isSpacing (s : String) : Bool := !s.isEmpty && s.data.all Char.isWhitespace

/-- Modelled from the spec (section 6, command-line construction): a
command string of the general shape
`source <activation-script> && activate <environment-name> && cd <tool-directory> && <tool-executable> <input-path> <output-path>`,
the parts separated by arbitrary non-empty whitespace, with the input path
argument immediately before the output path argument. This is the
specification-side shape that the command built by the source is compared
against. -/
def commandHasSpecShape (cmd activationScript toolDir inputPath outputPath : String) : Prop :=
  ∃ w0 w1 w2 w3 w4 : String,
    isSpacing w0 = true ∧ isSpacing w1 = true ∧ isSpacing w2 = true ∧ isSpacing w3 = true
    ∧ isSpacing w4 = true
    ∧ cmd = w0 ++ "source " ++ activationScript ++ " &&" ++ w1 ++ "conda activate cryoten_env &&"
        ++ w2 ++ "cd " ++ toolDir ++ " &&" ++ w3 ++ "python eval.py " ++ inputPath ++ " "
        ++ outputPath ++ w4

/-- The deterministically derived output path of claim C9: the tool
installation directory (SCIPION_BASE_PATH, or the home fallback, joined
with `software/em/cryoten-1.0.0/cryoten`), then `output`, then the input
file basename with its extension replaced by `.mrc`. -/
def declaredOutputPath (env : StepEnv) : String :=
  joinPath (joinPath (joinPath (scipionBasePath env) "software/em/cryoten-1.0.0/cryoten") "output")
    (splitextRoot (basename env.inputFilePath) ++ ".mrc")

/-- A concrete environment: conda lookup succeeds (base `/opt/conda` with
a trailing newline, as `conda info --base` prints), SCIPION_BASE_PATH set
to `/sb`, and the tool command exits 0. -/
def envOk : StepEnv :=
  { inputFilePath := "vol.map", basePath := "/proj",
    condaInfo := { returncode := 0, stdout := "/opt/conda\n", stderr := "" },
    scipionEnv := some "/sb", home := "/home/u",
    toolProc := { returncode := 0, stdout := "done", stderr := "" } }

/-- Like `envOk`, but the tool command exits 1 writing `boom` to its
standard error. -/
def envToolFail : StepEnv :=
  { envOk with toolProc := { returncode := 1, stdout := "", stderr := "boom" } }

/-- Like `envOk`, but the conda base lookup fails (exit 1, empty output,
`no conda` on its standard error), so the activation path is unresolved. -/
def envCondaFail : StepEnv :=
  { envOk with condaInfo := { returncode := 1, stdout := "", stderr := "no conda" } }

/-- Like `envOk`, but the input volume file name is the empty string. -/
def envEmptyInput : StepEnv :=
  { envOk with inputFilePath := "" }

/-- Merging the leading spacing of the command template with the word
`source` that follows it. -/
theorem merge_source (x : String) :
    "\n                " ++ ("source " ++ x) = "\n                source " ++ x := by
  rw [← String.append_assoc]; rfl

/-- Merging the literal run of the command template between the
activation script and the tool directory. -/
theorem merge_mid (y : String) :
    " &&" ++ ("                 " ++ ("conda activate cryoten_env &&"
      ++ ("                 " ++ ("cd " ++ y))))
    = " &&                 conda activate cryoten_env &&                 cd " ++ y := by
  rw [← String.append_assoc, ← String.append_assoc, ← String.append_assoc,
    ← String.append_assoc]; rfl

/-- Merging the literal run of the command template between the tool
directory and the input path argument. -/
theorem merge_tool (z : String) :
    " &&" ++ ("                 " ++ ("python eval.py " ++ z))
    = " &&                 python eval.py " ++ z := by
  rw [← String.append_assoc, ← String.append_assoc]; rfl

/-- The action trace of the step, in every environment, is either the
conda lookup alone (when the lookup fails) or the conda lookup followed by
exactly one shell command. -/
theorem actions_cases (env : StepEnv) :
    (runShellCommandsStep env).actions = [Action.condaLookup]
    ∨ ∃ cmd, (runShellCommandsStep env).actions = [Action.condaLookup, Action.shell cmd] := by
  unfold runShellCommandsStep stepBody
  cases h : get_conda_path env.condaInfo with
  | error e => simp [h]
  | ok c =>
    by_cases ht : env.toolProc.returncode = 0 <;> simp [h, run_command, ht]

/-- When the step ends with `outputFilePath` set, the tool process exited
0, no exception was caught, and exactly one tool shell command was
spawned. -/
theorem success_characterization (env : StepEnv)
    (h : (runShellCommandsStep env).outputFilePath ≠ none) :
    env.toolProc.returncode = 0 ∧ (runShellCommandsStep env).caughtError = none
    ∧ (runShellCommandsStep env).actions.countP Action.isToolSpawn = 1 := by
  unfold runShellCommandsStep stepBody at *
  cases hg : get_conda_path env.condaInfo with
  | error e => simp [hg] at h
  | ok c =>
    by_cases ht : env.toolProc.returncode = 0
    · simp [hg, run_command, ht]
      rfl
    · simp [hg, run_command, ht] at h

/-- Claim C1 (evaluation at the failing input): with the conda lookup
succeeding and the tool command exiting 1 with `boom` on its standard
error, the inner `run_command` raises an exception whose message carries
the captured standard error verbatim, but `runShellCommandsStep` catches
it in its bare except branch and only prints it: the step returns a plain
`StepResult` (no exception reaches its caller) with the message recorded
as caught, and `self.outputFilePath` still None. The claim says the error
is surfaced to the caller of the step rather than silently downgraded;
the code downgrades it to a log line. -/
theorem C1_invocation_error_swallowed :
    (runShellCommandsStep envToolFail).caughtError
      = some ("Command \x27"
          ++ buildCommand "/opt/conda/etc/profile.d/conda.sh" "/sb/software/em/cryoten-1.0.0/cryoten"
              "/proj/vol.map" "/sb/software/em/cryoten-1.0.0/cryoten/output/vol.mrc"
          ++ "\x27 failed with error: boom")
    ∧ (runShellCommandsStep envToolFail).outputFilePath = none := by decide

/-- Claim C2: for every environment whose conda base lookup fails or
returns an empty (stripped) output, the body of the step raises the
configuration error carrying the lookup standard error, before the tool
shell command is ever spawned: the action trace holds the conda lookup
only, no tool process, and `self.outputFilePath` is left unset. -/
theorem C2_config_failure_before_tool_spawn (env : StepEnv)
    (h : ¬ (env.condaInfo.returncode = 0 ∧ pyStrip env.condaInfo.stdout ≠ "")) :
    stepBody env = ([Action.condaLookup],
      .error ("An error occurred while determining conda path: Failed to determine conda base path: "
        ++ env.condaInfo.stderr))
    ∧ (runShellCommandsStep env).actions.countP Action.isToolSpawn = 0
    ∧ (runShellCommandsStep env).outputFilePath = none := by
  have hg : get_conda_path env.condaInfo
      = .error ("An error occurred while determining conda path: Failed to determine conda base path: "
        ++ env.condaInfo.stderr) := by
    unfold get_conda_path
    rw [if_neg h]
  refine ⟨?_, ?_, ?_⟩ <;>
    simp [stepBody, runShellCommandsStep, hg, List.countP, List.countP.go, Action.isToolSpawn]

/-- Witness for claim C2 at the concrete environment whose conda lookup
exits 1 with `no conda` on its standard error. -/
theorem C2_config_failure_witness :
    stepBody envCondaFail = ([Action.condaLookup],
      .error ("An error occurred while determining conda path: Failed to determine conda base path: "
        ++ envCondaFail.condaInfo.stderr))
    ∧ (runShellCommandsStep envCondaFail).actions.countP Action.isToolSpawn = 0
    ∧ (runShellCommandsStep envCondaFail).outputFilePath = none :=
  C2_config_failure_before_tool_spawn envCondaFail (by decide)

/-- Claim C3: `run_command` returns the captured (standard output,
standard error) pair exactly when the child process exit code is 0, and
for a non-zero exit code it never returns a result (it raises instead). -/
theorem C3_success_iff_exit_zero (cmd : String) (process : ProcResult) :
    (run_command cmd process = .ok (process.stdout, process.stderr) ↔ process.returncode = 0)
    ∧ (process.returncode ≠ 0 → ∀ out, run_command cmd process ≠ .ok out) := by
  by_cases h : process.returncode = 0 <;> simp [run_command, h]

/-- Witness for claim C3: at exit code 0 the pair is returned, at exit
code 1 it is not. -/
theorem C3_success_iff_exit_zero_witness :
    run_command "x" { returncode := 0, stdout := "o", stderr := "e" } = .ok ("o", "e")
    ∧ run_command "x" { returncode := 1, stdout := "o", stderr := "e" } ≠ .ok ("o", "e") :=
  ⟨(C3_success_iff_exit_zero "x" { returncode := 0, stdout := "o", stderr := "e" }).1.mpr rfl,
   (C3_success_iff_exit_zero "x" { returncode := 1, stdout := "o", stderr := "e" }).2
     (by decide) ("o", "e")⟩

/-- Counterexample to claim C4: in a concrete run that reaches the tool
invocation, the step performs no directory creation at all (zero mkdir
actions) even though it spawns the tool shell command, so the output
path parent directory is not created before invocation. -/
theorem C4_no_mkdir_counterexample :
    (runShellCommandsStep envOk).actions.countP Action.isMkdir = 0
    ∧ (runShellCommandsStep envOk).actions.countP Action.isToolSpawn = 1 := by decide

/-- Claim C4 as amended: the adapter never creates the output directory
(or any directory): in every environment the action trace of the step
contains no directory creation; the tool is invoked with the output path
as-is. -/
theorem C4_amended_no_directory_creation (env : StepEnv) :
    (runShellCommandsStep env).actions.countP Action.isMkdir = 0 := by
  rcases actions_cases env with h | ⟨cmd, h⟩ <;>
    simp [h, List.countP_cons, List.countP, List.countP.go, Action.isMkdir]

/-- Counterexample to claim C5: for the concrete request whose input path
is the empty string, `_validate` reports no error at all, and the
invocation is not rejected: the tool shell command is still spawned. -/
theorem C5_empty_input_not_rejected :
    protocol_validate envEmptyInput = ([] : List String)
    ∧ (runShellCommandsStep envEmptyInput).actions.countP Action.isToolSpawn = 1 := by decide

/-- Claim C5 as amended: the adapter performs no input validation:
`_validate` returns the empty error list for every request, and in
particular a request with an empty input path proceeds to spawn the tool
command. -/
theorem C5_amended_validate_empty :
    (∀ env : StepEnv, protocol_validate env = [])
    ∧ (runShellCommandsStep envEmptyInput).actions.countP Action.isToolSpawn = 1 :=
  ⟨fun _ => rfl, by decide⟩

/-- Claim C6: for every choice of activation script path, tool directory,
input path and output path, the command string built by the source has
the fixed shape of the spec: source of the activation script, then the
environment activation, then the change of directory into the tool
directory, then `python eval.py` with the input path argument immediately
before the output path argument, the parts separated by whitespace. -/
theorem C6_command_shape (c d i o : String) :
    commandHasSpecShape (buildCommand c d i o) c d i o := by
  refine ⟨"\n                ", "                 ", "                 ", "                 ",
    "\n            ", by decide, by decide, by decide, by decide, by decide, ?_⟩
  simp only [buildCommand, String.append_assoc]
  rw [merge_source, merge_mid, merge_tool]

/-- Counterexample to claim C7: in a concrete full run the step spawns
two child processes, not exactly one: the conda base lookup and then the
tool shell command. -/
theorem C7_two_spawns_counterexample :
    (runShellCommandsStep envOk).actions.countP Action.isProcessSpawn = 2
    ∧ ¬ (runShellCommandsStep envOk).actions.countP Action.isProcessSpawn = 1 := by decide

/-- Claim C7 as amended: each call of the step spawns the conda base
lookup process and then at most one tool shell process (two child
processes in total when the lookup resolves, one otherwise), and performs
no directory creation or other persistent write of its own. -/
theorem C7_amended_spawn_characterization (env : StepEnv) :
    ((runShellCommandsStep env).actions = [Action.condaLookup]
      ∨ ∃ cmd, (runShellCommandsStep env).actions = [Action.condaLookup, Action.shell cmd])
    ∧ (runShellCommandsStep env).actions.countP Action.isProcessSpawn ≤ 2
    ∧ (runShellCommandsStep env).actions.countP Action.isMkdir = 0 := by
  refine ⟨actions_cases env, ?_, ?_⟩ <;>
    rcases actions_cases env with h | ⟨cmd, h⟩ <;>
      simp [h, List.countP_cons, List.countP, List.countP.go, Action.isMkdir,
        Action.isProcessSpawn]

/-- Claim C8: `self.outputFilePath` is set only when the shell command
completed successfully (tool exit code 0, no exception caught, exactly
one tool spawn), and when it was never assigned (still None),
`createOutputStep` raises the RuntimeError and registers no output
volume. -/
theorem C8_output_only_after_success (env : StepEnv) (iv : Volume) :
    ((runShellCommandsStep env).outputFilePath ≠ none →
      env.toolProc.returncode = 0 ∧ (runShellCommandsStep env).caughtError = none
      ∧ (runShellCommandsStep env).actions.countP Action.isToolSpawn = 1)
    ∧ createOutputStep iv none
        = .error "Output file path is not set. Ensure runShellCommandsStep has been executed successfully." :=
  ⟨success_characterization env, rfl⟩

/-- Witness for claim C8 at the concrete full-success environment. -/
theorem C8_output_only_after_success_witness :
    envOk.toolProc.returncode = 0 ∧ (runShellCommandsStep envOk).caughtError = none
    ∧ (runShellCommandsStep envOk).actions.countP Action.isToolSpawn = 1 :=
  (C8_output_only_after_success envOk { fileName := "in.mrc", samplingRate := 1 }).1 (by decide)

/-- Claim C9: when the conda lookup and the tool command succeed, the
declared output path assigned by the step is exactly the deterministic
derivation of `declaredOutputPath`: the tool installation directory
(SCIPION_BASE_PATH, or home/scipion when unset, joined with
`software/em/cryoten-1.0.0/cryoten`) joined with `output` and the input
file basename with its extension replaced by `.mrc`; and the protocol
registers no user parameter for an output destination. -/
theorem C9_output_path_derivation (env : StepEnv)
    (hc : env.condaInfo.returncode = 0) (hb : pyStrip env.condaInfo.stdout ≠ "")
    (ht : env.toolProc.returncode = 0) :
    (runShellCommandsStep env).outputFilePath = some (declaredOutputPath env)
    ∧ "outputFile" ∉ cryotenParamNames := by
  have hg : get_conda_path env.condaInfo
      = .ok (joinPath (joinPath (joinPath (pyStrip env.condaInfo.stdout) "etc") "profile.d")
          "conda.sh") := by
    unfold get_conda_path
    rw [if_pos ⟨hc, hb⟩]
  constructor
  · unfold runShellCommandsStep stepBody
    simp [hg, run_command, ht, declaredOutputPath]
  · decide

/-- Witness for claim C9 at the concrete full-success environment. -/
theorem C9_output_path_derivation_witness :
    (runShellCommandsStep envOk).outputFilePath = some (declaredOutputPath envOk)
    ∧ "outputFile" ∉ cryotenParamNames :=
  C9_output_path_derivation envOk (by decide) (by decide) (by decide)

/-- Claim C10: for a set (non-empty) output file path, `createOutputStep`
registers an output volume whose sampling rate is exactly the input
volume sampling rate (the voxel size is propagated unchanged), whose file
name is the declared output path, and links it as derived from the input
volume through the source relation. -/
theorem C10_sampling_rate_propagated (iv : Volume) (p : String) (hp : p ≠ "") :
    ∃ reg, createOutputStep iv (some p) = .ok reg
      ∧ reg.outputVolume.samplingRate = iv.samplingRate
      ∧ reg.outputVolume.fileName = p
      ∧ reg.sourceRelation = (iv, reg.outputVolume) := by
  have h : createOutputStep iv (some p)
      = .ok { outputVolume := { fileName := p, samplingRate := iv.samplingRate },
              sourceRelation := (iv, { fileName := p, samplingRate := iv.samplingRate }) } := by
    simp [createOutputStep, pyFalsyStr, hp]
  exact ⟨_, h, rfl, rfl, rfl⟩

/-- Witness for claim C10 at a concrete input volume and output path. -/
theorem C10_sampling_rate_propagated_witness :
    ∃ reg, createOutputStep { fileName := "in.mrc", samplingRate := 2 } (some "out.mrc") = .ok reg
      ∧ reg.outputVolume.samplingRate
          = ({ fileName := "in.mrc", samplingRate := 2 } : Volume).samplingRate
      ∧ reg.outputVolume.fileName = "out.mrc"
      ∧ reg.sourceRelation = ({ fileName := "in.mrc", samplingRate := 2 }, reg.outputVolume) :=
  C10_sampling_rate_propagated { fileName := "in.mrc", samplingRate := 2 } "out.mrc" (by decide)

end Cryoten
